import Mathlib

/-
  Shallow embedding of the Content Store Query Layer of the Blogwebsite
  repository (the Hono request handler in the server source file), together
  with proofs about its behaviour.

  Conventions of the embedding:
  * JSON string values are Lean `String`, JSON numbers used as counters are
    `Int`, timestamps (`Date.now()` / `toISOString`, which are order-isomorphic)
    are `Nat` milliseconds.
  * A field that the handler can leave `undefined` on a stored record is an
    `Option`; a request-body field is an `Option` whose `none` means "absent
    from the JSON body".
  * JS `a || b` for strings treats the empty string as falsy; `jsOrStr` /
    `jsOrOpt` model this.
  * `verifyAuth` returns either `null` or a user object with `id` and `email`;
    it is modelled by an `Option AuthUser` argument to each handler.
-/

namespace Blog

/-- Result kinds of the handler's error responses: 400 validation,
401 authentication, 403 authorization, 404 not found. -/
inductive HErr where
  | validation
  | authentication
  | authorization
  | notFound
  deriving DecidableEq, Repr

/-- Caller identity as returned by `verifyAuth` (the auth-provider user
object; the handler only reads `user.id` and `user.email`). -/
structure AuthUser where
  id : String
  email : String
  deriving DecidableEq, Repr

/-- User record as written by the signup handler. -/
structure User where
  id : String
  email : String
  username : String
  role : String
  avatar : String
  bio : String
  createdAt : Nat
  deriving DecidableEq, Repr

/-- Post record as written by the create-post handler.  `title`, `content`
and `excerpt` pass through from the client body and can be absent. -/
structure Post where
  id : String
  title : Option String
  content : Option String
  excerpt : Option String
  authorId : String
  authorName : String
  image : String
  tags : List String
  categories : List String
  status : String
  featured : Bool
  likes : Int
  createdAt : Nat
  updatedAt : Nat
  deriving DecidableEq, Repr

/-- Comment record as written by the create-comment handler. -/
structure Comment where
  id : String
  postId : String
  userId : String
  username : String
  avatar : String
  content : String
  parentId : Option String
  likes : Int
  createdAt : Nat
  deriving DecidableEq, Repr

/-- Modelled from the spec: the key-value namespace (`kv_store.tsx` is not
part of the shipped sources; §2 of the spec describes opaque string keys with
get, set, delete and prefix listing).  Keys of the three kinds live in
disjoint `users:`/`posts:`/`comments:` prefixes, so the store is three
association lists keyed by the id part of the key. -/
abbrev KV (α : Type) : Type := List (String × α)

/-- Modelled from the spec: `kv.get` — direct key fetch. -/
def kvGet {α : Type} (l : KV α) (k : String) : Option α :=
  (List.find? (fun p => p.1 == k) l).map (fun p => p.2)

/-- Modelled from the spec: `kv.set` — upsert at a key. -/
def kvSet {α : Type} (l : KV α) (k : String) (v : α) : KV α :=
  if List.any l (fun p => p.1 == k) then
    List.map (fun p => if p.1 == k then (k, v) else p) l
  else
    l ++ [(k, v)]

/-- Modelled from the spec: `kv.del` — delete a key. -/
def kvDel {α : Type} (l : KV α) (k : String) : KV α :=
  List.filter (fun p => !(p.1 == k)) l

/-- Modelled from the spec: `kv.getByPrefix` over one kind's whole key range
returns every stored value of that kind. -/
def kvValues {α : Type} (l : KV α) : List α :=
  List.map (fun p => p.2) l

/-- Whole store state: the three key ranges. -/
structure Store where
  users : KV User
  posts : KV Post
  comments : KV Comment
  deriving Repr

/-- JS `a || b` where `a` is a possibly-absent string: the empty string is
falsy, so it also falls through to the default. -/
def jsOrStr (a : Option String) (b : String) : String :=
  match a with
  | some s => if s.isEmpty then b else s
  | none => b

/-- JS `a || b` where both sides are possibly-absent strings. -/
def jsOrOpt (a : Option String) (b : Option String) : Option String :=
  match a with
  | some s => if s.isEmpty then b else some s
  | none => b

/-- Body-field override used by the spread merges `{ ...current, ...updates }`
on a field that is optional on the stored record. -/
def ovOpt (b : Option String) (c : Option String) : Option String :=
  match b with
  | some x => some x
  | none => c

/-- JS `String.prototype.substring(0, n)`: the first `n` code units.  The
embedding counts characters instead of UTF-16 units. -/
def strTake (s : String) (n : Nat) : String :=
  String.mk (List.take n s.data)

/-- JS `String.prototype.includes`: substring containment (always true for
the empty needle). -/
def strIncludes (hay needle : String) : Bool :=
  needle.isEmpty || 2 ≤ (hay.splitOn needle).length

/-- Query-parameter truthiness: `if (category) { ... }` skips the filter when
the parameter is missing or the empty string. -/
def whenTruthy (o : Option String) : Option String :=
  match o with
  | some s => if s.isEmpty then none else some s
  | none => none

/-- Admin check used by the post/comment/admin handlers:
`userData?.role !== 'admin'` with optional chaining. -/
def roleIsAdmin (userData : Option User) : Bool :=
  match userData with
  | some u => u.role == "admin"
  | none => false

/-! ### User routes -/

/-- Partial JSON body of a profile update; `none` means absent. -/
structure UserUpdate where
  email : Option String := none
  username : Option String := none
  role : Option String := none
  avatar : Option String := none
  bio : Option String := none
  createdAt : Option Nat := none
  deriving DecidableEq, Repr

/-- Shallow merge `{ ...currentData, ...updates, id: userId }` of the
update-user handler. -/
def mergeUser (cur : User) (b : UserUpdate) (userId : String) : User :=
  { id := userId
    email := b.email.getD cur.email
    username := b.username.getD cur.username
    role := b.role.getD cur.role
    avatar := b.avatar.getD cur.avatar
    bio := b.bio.getD cur.bio
    createdAt := b.createdAt.getD cur.createdAt }

/-- PUT `/user/:id`: 401 without identity, 403 unless the caller is the
target id, 404 if the record is absent, else shallow-merge and store. -/
def updateUser (st : Store) (caller : Option AuthUser) (userId : String)
    (updates : UserUpdate) : Except HErr User × Store :=
  match caller with
  | none => (Except.error HErr.authentication, st)
  | some u =>
    if u.id ≠ userId then (Except.error HErr.authorization, st)
    else
      match kvGet st.users userId with
      | none => (Except.error HErr.notFound, st)
      | some cur =>
        let updatedUser := mergeUser cur updates userId
        (Except.ok updatedUser, { st with users := kvSet st.users userId updatedUser })

/-! ### Post routes -/

/-- JSON body of a create-post request; every field is client-optional. -/
structure CreatePostBody where
  title : Option String := none
  content : Option String := none
  excerpt : Option String := none
  image : Option String := none
  tags : Option (List String) := none
  categories : Option (List String) := none
  status : Option String := none
  featured : Option Bool := none
  deriving DecidableEq, Repr

/-- Generated post id `post_${Date.now()}_${random}`. -/
def postIdOf (now : Nat) (rand : String) : String :=
  "post_" ++ Nat.repr now ++ "_" ++ rand

/-- Record built by the create-post handler from the body and the caller's
identity.  `excerpt` defaults to the first 200 characters of `content`;
`status` defaults to `"published"`. -/
def newPostOf (st : Store) (u : AuthUser) (body : CreatePostBody)
    (now : Nat) (rand : String) : Post :=
  let userData := kvGet st.users u.id
  { id := postIdOf now rand
    title := body.title
    content := body.content
    excerpt := jsOrOpt body.excerpt (body.content.map (fun s => strTake s 200))
    authorId := u.id
    authorName := jsOrStr (userData.map (fun d => d.username)) u.email
    image := jsOrStr body.image ""
    tags := body.tags.getD []
    categories := body.categories.getD []
    status := jsOrStr body.status "published"
    featured := body.featured.getD false
    likes := 0
    createdAt := now
    updatedAt := now }

/-- POST `/posts`: 401 without identity; otherwise build the new record from
the body and the caller's identity and store it under its generated id. -/
def createPost (st : Store) (caller : Option AuthUser) (body : CreatePostBody)
    (now : Nat) (rand : String) : Except HErr Post × Store :=
  match caller with
  | none => (Except.error HErr.authentication, st)
  | some u =>
    let newPost := newPostOf st u body now rand
    (Except.ok newPost, { st with posts := kvSet st.posts (postIdOf now rand) newPost })

/-- GET `/posts/:id`: direct fetch, 404 when absent. -/
def getPost (st : Store) (postId : String) : Except HErr Post :=
  match kvGet st.posts postId with
  | none => Except.error HErr.notFound
  | some p => Except.ok p

/-- Partial JSON body of a post update; `none` means absent.  `id` and
`updatedAt` also appear in real bodies but are overwritten by the spread, so
they are omitted here. -/
structure PostUpdate where
  title : Option String := none
  content : Option String := none
  excerpt : Option String := none
  authorId : Option String := none
  authorName : Option String := none
  image : Option String := none
  tags : Option (List String) := none
  categories : Option (List String) := none
  status : Option String := none
  featured : Option Bool := none
  likes : Option Int := none
  createdAt : Option Nat := none
  deriving DecidableEq, Repr

/-- Shallow merge `{ ...currentPost, ...updates, id: postId, updatedAt: now }`
of the update-post handler. -/
def mergePost (cur : Post) (b : PostUpdate) (postId : String) (now : Nat) : Post :=
  { id := postId
    title := ovOpt b.title cur.title
    content := ovOpt b.content cur.content
    excerpt := ovOpt b.excerpt cur.excerpt
    authorId := b.authorId.getD cur.authorId
    authorName := b.authorName.getD cur.authorName
    image := b.image.getD cur.image
    tags := b.tags.getD cur.tags
    categories := b.categories.getD cur.categories
    status := b.status.getD cur.status
    featured := b.featured.getD cur.featured
    likes := b.likes.getD cur.likes
    createdAt := b.createdAt.getD cur.createdAt
    updatedAt := now }

/-- PUT `/posts/:id`: 401 without identity, 404 if the post is absent, 403
unless the caller is the author or an admin, else shallow-merge and store. -/
def updatePost (st : Store) (caller : Option AuthUser) (postId : String)
    (updates : PostUpdate) (now : Nat) : Except HErr Post × Store :=
  match caller with
  | none => (Except.error HErr.authentication, st)
  | some u =>
    match kvGet st.posts postId with
    | none => (Except.error HErr.notFound, st)
    | some cur =>
      let userData := kvGet st.users u.id
      if cur.authorId ≠ u.id ∧ roleIsAdmin userData = false then
        (Except.error HErr.authorization, st)
      else
        let updatedPost := mergePost cur updates postId now
        (Except.ok updatedPost, { st with posts := kvSet st.posts postId updatedPost })

/-- DELETE `/posts/:id`: 401 without identity, 404 if the post is absent, 403
unless the caller is the author or an admin, else delete the key. -/
def deletePost (st : Store) (caller : Option AuthUser) (postId : String) :
    Except HErr Unit × Store :=
  match caller with
  | none => (Except.error HErr.authentication, st)
  | some u =>
    match kvGet st.posts postId with
    | none => (Except.error HErr.notFound, st)
    | some post =>
      let userData := kvGet st.users u.id
      if post.authorId ≠ u.id ∧ roleIsAdmin userData = false then
        (Except.error HErr.authorization, st)
      else
        (Except.ok (), { st with posts := kvDel st.posts postId })

/-- POST `/posts/:id/like`: unauthenticated; 404 if absent, else
`likes = (likes || 0) + 1` (0 is the only falsy `Int`) and store. -/
def likePost (st : Store) (postId : String) : Except HErr Int × Store :=
  match kvGet st.posts postId with
  | none => (Except.error HErr.notFound, st)
  | some post =>
    let newLikes := (if post.likes == 0 then 0 else post.likes) + 1
    let post2 := { post with likes := newLikes }
    (Except.ok newLikes, { st with posts := kvSet st.posts postId post2 })

/-- POST `/comments/:id/like`: same read-modify-write on a comment. -/
def likeComment (st : Store) (commentId : String) : Except HErr Int × Store :=
  match kvGet st.comments commentId with
  | none => (Except.error HErr.notFound, st)
  | some comment =>
    let newLikes := (if comment.likes == 0 then 0 else comment.likes) + 1
    let comment2 := { comment with likes := newLikes }
    (Except.ok newLikes, { st with comments := kvSet st.comments commentId comment2 })

/-- Iterated sequential Like calls on one post id. -/
def likePostN (st : Store) (postId : String) : Nat → Store
  | 0 => st
  | n + 1 => likePostN (likePost st postId).2 postId n

/-- Iterated sequential Like calls on one comment id. -/
def likeCommentN (st : Store) (commentId : String) : Nat → Store
  | 0 => st
  | n + 1 => likeCommentN (likeComment st commentId).2 commentId n

/-! ### List posts -/

/-- Visibility step of the list-posts handler: an unauthenticated caller sees
only `status === 'published'` posts. -/
def visibilityFilter (caller : Option AuthUser) (posts : List Post) : List Post :=
  match caller with
  | none => List.filter (fun p => p.status == "published") posts
  | some _ => posts

/-- Category membership step: applied only for a truthy `category` query. -/
def categoryFilter (category : Option String) (posts : List Post) : List Post :=
  match whenTruthy category with
  | some c => List.filter (fun p => p.categories.contains c) posts
  | none => posts

/-- Tag membership step: applied only for a truthy `tag` query. -/
def tagFilter (tag : Option String) (posts : List Post) : List Post :=
  match whenTruthy tag with
  | some t => List.filter (fun p => p.tags.contains t) posts
  | none => posts

/-- Case-insensitive membership of the needle in an optional field
(`p.title?.toLowerCase().includes(searchLower)`; absent field is falsy). -/
def optIncludes (field : Option String) (needle : String) : Bool :=
  match field with
  | some t => strIncludes t.toLower needle
  | none => false

/-- Search step: case-insensitive substring over title, content, excerpt. -/
def searchFilter (search : Option String) (posts : List Post) : List Post :=
  match whenTruthy search with
  | some s =>
    let searchLower := s.toLower
    List.filter (fun p =>
      optIncludes p.title searchLower ||
      optIncludes p.content searchLower ||
      optIncludes p.excerpt searchLower) posts
  | none => posts

/-- Featured step: the filter runs only under strict equality
`featured === 'true'` on the raw query string. -/
def featuredFilter (featured : Option String) (posts : List Post) : List Post :=
  if featured == some "true" then List.filter (fun p => p.featured) posts
  else posts

/-- Insertion of a post into a list kept in descending `createdAt` order. -/
def insertByDesc (p : Post) : List Post → List Post
  | [] => [p]
  | q :: qs => if q.createdAt ≤ p.createdAt then p :: q :: qs else q :: insertByDesc p qs

/-- Sort newest-first by `createdAt` (the handler's final `posts.sort`). -/
def sortByCreatedAtDesc : List Post → List Post
  | [] => []
  | p :: ps => insertByDesc p (sortByCreatedAtDesc ps)

/-- Filter stages (a)–(c) of the list-posts pipeline, before the featured
step and the sort. -/
def postsAfterFilters (st : Store) (caller : Option AuthUser)
    (category tag search : Option String) : List Post :=
  searchFilter search (tagFilter tag (categoryFilter category
    (visibilityFilter caller (kvValues st.posts))))

/-- GET `/posts`: prefix scan, visibility filter, category/tag/search
filters, featured filter, then sort descending by creation date. -/
def listPosts (st : Store) (caller : Option AuthUser)
    (category tag search featured : Option String) : List Post :=
  sortByCreatedAtDesc (featuredFilter featured
    (postsAfterFilters st caller category tag search))

/-! ### Categories and tags -/

/-- Accumulation of one string-list field over all scanned posts (the
`posts.forEach(... set.add ...)` loop). -/
def collectAll (f : Post → List String) : List Post → List String
  | [] => []
  | p :: ps => f p ++ collectAll f ps

/-- Deduplication of the collected strings (the `Set` in the handler keeps
one copy of each value; after sorting, which copy was kept is invisible). -/
def dedupStr : List String → List String
  | [] => []
  | s :: ss => if s ∈ ss then dedupStr ss else s :: dedupStr ss

/-- Lexicographic comparison of character sequences, as JS `Array.sort`'s
default comparator orders strings by code units. -/
def charsLe : List Char → List Char → Bool
  | [], _ => true
  | _ :: _, [] => false
  | a :: as, b :: bs => if a < b then true else if b < a then false else charsLe as bs

/-- Ordering on strings used by the categories/tags sort. -/
def strLe (a b : String) : Bool := charsLe a.data b.data

/-- Insertion into a lexicographically ascending list of strings. -/
def insertStr (s : String) : List String → List String
  | [] => [s]
  | t :: ts => if strLe s t then s :: t :: ts else t :: insertStr s ts

/-- Lexicographic sort of strings (the handler's `Array.from(set).sort()`). -/
def sortStrings : List String → List String
  | [] => []
  | s :: ss => insertStr s (sortStrings ss)

/-- GET `/categories`: scan every post (no auth, no visibility filter),
union the `categories` sets, sort. -/
def listCategories (st : Store) : List String :=
  sortStrings (dedupStr (collectAll (fun p => p.categories) (kvValues st.posts)))

/-- GET `/tags`: scan every post (no auth, no visibility filter), union the
`tags` sets, sort. -/
def listTags (st : Store) : List String :=
  sortStrings (dedupStr (collectAll (fun p => p.tags) (kvValues st.posts)))

/-- Shape of the generated post ids: `post_<digits>_<alnum>`. -/
def PostIdPattern (s : String) : Prop :=
  ∃ d r : String, s = "post_" ++ d ++ "_" ++ r ∧
    d ≠ "" ∧ d.data.all Char.isDigit ∧
    r ≠ "" ∧ r.data.all Char.isAlphanum

/-! ### Concrete fixtures for witnesses and counterexamples -/

/-- Ordinary (non-admin) user who authored `post1`. -/
def alice : User :=
  { id := "alice", email := "a@x.io", username := "Alice", role := "user"
    avatar := "", bio := "", createdAt := 1 }

/-- Ordinary (non-admin) user who authored nothing. -/
def bob : User :=
  { id := "bob", email := "b@x.io", username := "Bob", role := "user"
    avatar := "", bio := "", createdAt := 2 }

/-- Caller identity of `alice` as returned by `verifyAuth`. -/
def aliceAuth : AuthUser := { id := "alice", email := "a@x.io" }

/-- Caller identity of `bob` as returned by `verifyAuth`. -/
def bobAuth : AuthUser := { id := "bob", email := "b@x.io" }

/-- Published, featured post by alice with 5 likes. -/
def post1 : Post :=
  { id := "p1", title := some "Hello", content := some "<p>hello world</p>"
    excerpt := some "hello", authorId := "alice", authorName := "Alice"
    image := "", tags := ["x"], categories := ["B"], status := "published"
    featured := true, likes := 5, createdAt := 10, updatedAt := 10 }

/-- Draft post by alice whose category and tag occur on no published post. -/
def draftPost : Post :=
  { id := "p2", title := some "Secret plan", content := some "<p>wip</p>"
    excerpt := some "wip", authorId := "alice", authorName := "Alice"
    image := "", tags := ["hidden"], categories := ["secret"], status := "draft"
    featured := false, likes := 0, createdAt := 20, updatedAt := 20 }

/-- Top-level comment on `post1` with 2 likes. -/
def comment1 : Comment :=
  { id := "c1", postId := "p1", userId := "bob", username := "Bob", avatar := ""
    content := "nice", parentId := none, likes := 2, createdAt := 11 }

/-- Store holding the fixtures above. -/
def demoStore : Store :=
  { users := [("alice", alice), ("bob", bob)]
    posts := [("p1", post1), ("p2", draftPost)]
    comments := [("c1", comment1)] }

/-- Record produced by the create-post round trip of the C7 witness. -/
def c7Post : Post :=
  { id := "post_12_ab3", title := some "T", content := some "<p>hi</p>"
    excerpt := some "<p>hi</p>", authorId := "alice", authorName := "Alice"
    image := "", tags := ["x", "y"], categories := [], status := "published"
    featured := false, likes := 0, createdAt := 12, updatedAt := 12 }

/-- Client-supplied excerpt of 201 characters. -/
def longExcerpt : String := String.mk (List.replicate 201 'a')

end Blog

namespace Blog

/-! ### Key-value store lemmas -/

theorem find?_map_set {α : Type} (l : KV α) (k : String) (v : α)
    (h : List.any l (fun p => p.1 == k) = true) :
    List.find? (fun p => p.1 == k)
      (List.map (fun p => if p.1 == k then (k, v) else p) l) = some (k, v) := by
  induction l with
  | nil => simp at h
  | cons hd tl ih =>
    rw [List.map_cons]
    by_cases hk : (hd.1 == k) = true
    · rw [if_pos hk]
      apply List.find?_cons_of_pos
      simp
    · rw [if_neg hk, List.find?_cons_of_neg _ (by simpa using hk)]
      apply ih
      simp only [List.any_cons, Bool.or_eq_true] at h
      rcases h with h | h
      · exact absurd h hk
      · exact h

theorem kvGet_kvSet_self {α : Type} (l : KV α) (k : String) (v : α) :
    kvGet (kvSet l k v) k = some v := by
  unfold kvGet kvSet
  by_cases h : List.any l (fun p => p.1 == k) = true
  · rw [if_pos h, find?_map_set l k v h]
    rfl
  · rw [if_neg h, List.find?_append]
    have h0 : List.find? (fun p => p.1 == k) l = none := by
      rw [List.find?_eq_none]
      intro x hx hpx
      exact h (List.any_eq_true.mpr ⟨x, hx, hpx⟩)
    simp [h0, List.find?]

/-! ### Decimal representation lemmas -/

theorem digitChar_isDigit (m : Nat) (h : m < 10) : (Nat.digitChar m).isDigit = true := by
  interval_cases m <;> decide

theorem toDigitsCore_shape (f n : Nat) (acc : List Char) :
    ∃ l : List Char, Nat.toDigitsCore 10 f n acc = l ++ acc ∧
      l.all Char.isDigit = true ∧ (0 < f → l ≠ []) := by
  induction f generalizing n acc with
  | zero => exact ⟨[], rfl, rfl, fun hf => absurd hf (by omega)⟩
  | succ f ih =>
    simp only [Nat.toDigitsCore]
    by_cases hz : n / 10 = 0
    · refine ⟨[Nat.digitChar (n % 10)], by simp [hz], ?_, by simp⟩
      simp [digitChar_isDigit (n % 10) (Nat.mod_lt n (by omega))]
    · obtain ⟨l, heq, hall, _⟩ := ih (n / 10) (Nat.digitChar (n % 10) :: acc)
      refine ⟨l ++ [Nat.digitChar (n % 10)], ?_, ?_, by simp⟩
      · simp [hz, heq]
      · simp [List.all_append, hall,
          digitChar_isDigit (n % 10) (Nat.mod_lt n (by omega))]

theorem repr_all_digits (n : Nat) : (Nat.repr n).data.all Char.isDigit = true := by
  obtain ⟨l, heq, hall, _⟩ := toDigitsCore_shape (n + 1) n []
  show (Nat.toDigitsCore 10 (n + 1) n []).all Char.isDigit = true
  simp only [heq, List.append_nil]
  exact hall

theorem repr_ne_empty (n : Nat) : Nat.repr n ≠ "" := by
  obtain ⟨l, heq, _, hne⟩ := toDigitsCore_shape (n + 1) n []
  have hl : l ≠ [] := hne (by omega)
  intro hcontra
  have hdata : Nat.toDigitsCore 10 (n + 1) n [] = [] := by
    have h1 : (Nat.repr n).data = Nat.toDigitsCore 10 (n + 1) n [] := rfl
    rw [hcontra] at h1
    exact h1.symm
  rw [heq, List.append_nil] at hdata
  exact hl hdata

/-! ### Membership lemmas for sorting, deduplication and collection -/

theorem mem_insertByDesc (x p : Post) (l : List Post) :
    x ∈ insertByDesc p l ↔ x = p ∨ x ∈ l := by
  induction l with
  | nil => simp [insertByDesc]
  | cons q qs ih =>
    simp only [insertByDesc]
    split
    · simp [List.mem_cons]
    · simp only [List.mem_cons, ih]
      tauto

theorem mem_sortByCreatedAtDesc (x : Post) (l : List Post) :
    x ∈ sortByCreatedAtDesc l ↔ x ∈ l := by
  induction l with
  | nil => simp [sortByCreatedAtDesc]
  | cons p ps ih => simp [sortByCreatedAtDesc, mem_insertByDesc, ih]

theorem mem_insertStr (x s : String) (l : List String) :
    x ∈ insertStr s l ↔ x = s ∨ x ∈ l := by
  induction l with
  | nil => simp [insertStr]
  | cons t ts ih =>
    simp only [insertStr]
    split
    · simp [List.mem_cons]
    · simp only [List.mem_cons, ih]
      tauto

theorem mem_sortStrings (x : String) (l : List String) :
    x ∈ sortStrings l ↔ x ∈ l := by
  induction l with
  | nil => simp [sortStrings]
  | cons s ss ih => simp [sortStrings, mem_insertStr, ih]

theorem mem_dedupStr (x : String) (l : List String) :
    x ∈ dedupStr l ↔ x ∈ l := by
  induction l with
  | nil => simp [dedupStr]
  | cons s ss ih =>
    simp only [dedupStr]
    split
    · rename_i hmem
      simp only [ih, List.mem_cons]
      constructor
      · exact Or.inr
      · rintro (rfl | h)
        · exact hmem
        · exact h
    · simp [List.mem_cons, ih]

theorem mem_collectAll (f : Post → List String) (x : String) (l : List Post) :
    x ∈ collectAll f l ↔ ∃ p, p ∈ l ∧ x ∈ f p := by
  induction l with
  | nil => simp [collectAll]
  | cons p ps ih =>
    simp only [collectAll, List.mem_append, ih, List.mem_cons]
    constructor
    · rintro (h | ⟨q, hq, hx⟩)
      · exact ⟨p, Or.inl rfl, h⟩
      · exact ⟨q, Or.inr hq, hx⟩
    · rintro ⟨q, rfl | hq, hx⟩
      · exact Or.inl hx
      · exact Or.inr ⟨q, hq, hx⟩

/-! ### List-posts pipeline lemmas -/

theorem mem_of_mem_categoryFilter {p : Post} {category : Option String}
    {l : List Post} (h : p ∈ categoryFilter category l) : p ∈ l := by
  unfold categoryFilter at h
  split at h
  · exact (List.mem_filter.mp h).1
  · exact h

theorem mem_of_mem_tagFilter {p : Post} {tag : Option String}
    {l : List Post} (h : p ∈ tagFilter tag l) : p ∈ l := by
  unfold tagFilter at h
  split at h
  · exact (List.mem_filter.mp h).1
  · exact h

theorem mem_of_mem_searchFilter {p : Post} {search : Option String}
    {l : List Post} (h : p ∈ searchFilter search l) : p ∈ l := by
  unfold searchFilter at h
  split at h
  · exact (List.mem_filter.mp h).1
  · exact h

theorem mem_of_mem_featuredFilter {p : Post} {featured : Option String}
    {l : List Post} (h : p ∈ featuredFilter featured l) : p ∈ l := by
  unfold featuredFilter at h
  split at h
  · exact (List.mem_filter.mp h).1
  · exact h

theorem status_of_mem_visibilityFilter_none {p : Post} {l : List Post}
    (h : p ∈ visibilityFilter none l) : p.status = "published" := by
  unfold visibilityFilter at h
  have := (List.mem_filter.mp h).2
  simpa using this

end Blog

namespace Blog

/-! ### Claim theorems -/

/-- C4: for every store state and every List Posts request with no caller
identity, no post with status `draft` appears in the result: the visibility
filter keeps only `published` posts before the other filters run. -/
theorem c4_unauthenticated_sees_no_drafts (st : Store)
    (category tag search featured : Option String) (p : Post)
    (h : p ∈ listPosts st none category tag search featured) :
    p.status = "published" ∧ p.status ≠ "draft" := by
  unfold listPosts at h
  rw [mem_sortByCreatedAtDesc] at h
  have h1 := mem_of_mem_featuredFilter h
  unfold postsAfterFilters at h1
  have h2 := mem_of_mem_searchFilter h1
  have h3 := mem_of_mem_tagFilter h2
  have h4 := mem_of_mem_categoryFilter h3
  have hs := status_of_mem_visibilityFilter_none h4
  refine ⟨hs, ?_⟩
  rw [hs]
  decide

/-- C4 witness: in the demo store an unauthenticated listing contains
`post1`, and the theorem yields its status facts. -/
theorem c4_witness : post1.status = "published" ∧ post1.status ≠ "draft" :=
  c4_unauthenticated_sees_no_drafts demoStore none none none none post1 (by decide)

/-- C5: the categories and tags listings scan every post with no visibility
or authentication filtering, so a category or tag carried only by a draft
post is still included in the unauthenticated caller's result. -/
theorem c5_categories_tags_include_draft_posts :
    (∀ (st : Store) (p : Post) (c : String), p ∈ kvValues st.posts →
      p.status = "draft" → c ∈ p.categories → c ∈ listCategories st) ∧
    (∀ (st : Store) (p : Post) (t : String), p ∈ kvValues st.posts →
      p.status = "draft" → t ∈ p.tags → t ∈ listTags st) := by
  constructor
  · intro st p c hp _ hc
    unfold listCategories
    rw [mem_sortStrings, mem_dedupStr, mem_collectAll]
    exact ⟨p, hp, hc⟩
  · intro st p t hp _ ht
    unfold listTags
    rw [mem_sortStrings, mem_dedupStr, mem_collectAll]
    exact ⟨p, hp, ht⟩

/-- C5 witness: the demo store's draft-only category and tag show up in the
public listings. -/
theorem c5_witness :
    "secret" ∈ listCategories demoStore ∧ "hidden" ∈ listTags demoStore :=
  ⟨c5_categories_tags_include_draft_posts.1 demoStore draftPost "secret"
      (by decide) (by decide) (by decide),
   c5_categories_tags_include_draft_posts.2 demoStore draftPost "hidden"
      (by decide) (by decide) (by decide)⟩

/-- C6: an authenticated caller who is neither the author nor an admin gets
an authorization error from both Update Post and Delete Post, and the whole
store (hence the post record) is returned unchanged. -/
theorem c6_non_author_rejected_store_unchanged (st : Store) (u : AuthUser)
    (postId : String) (b : PostUpdate) (now : Nat) (cur : Post)
    (hget : kvGet st.posts postId = some cur)
    (hauthor : cur.authorId ≠ u.id)
    (hadmin : roleIsAdmin (kvGet st.users u.id) = false) :
    updatePost st (some u) postId b now = (Except.error HErr.authorization, st) ∧
    deletePost st (some u) postId = (Except.error HErr.authorization, st) := by
  constructor <;> simp [updatePost, deletePost, hget, hauthor, hadmin]

/-- C6 witness: bob (authenticated, non-author, non-admin) updating or
deleting alice's post gets 403 and the demo store is untouched. -/
theorem c6_witness :
    updatePost demoStore (some bobAuth) "p1" {} 99
      = (Except.error HErr.authorization, demoStore) ∧
    deletePost demoStore (some bobAuth) "p1"
      = (Except.error HErr.authorization, demoStore) :=
  c6_non_author_rejected_store_unchanged demoStore bobAuth "p1" {} 99 post1
    (by decide) (by decide) (by decide)

/-- C3: the self-service profile update is an unrestricted shallow merge, so
a non-admin caller updating their own record with `{role: 'admin'}` succeeds
and the stored record's role becomes `admin`. -/
theorem c3_self_update_escalates_role (st : Store) (u : AuthUser) (cur : User)
    (b : UserUpdate) (hget : kvGet st.users u.id = some cur)
    (_hrole : cur.role = "user") (hb : b.role = some "admin") :
    (updateUser st (some u) u.id b).1 = Except.ok (mergeUser cur b u.id) ∧
    (kvGet (updateUser st (some u) u.id b).2.users u.id).map User.role
      = some "admin" := by
  constructor <;> simp [updateUser, hget, kvGet_kvSet_self, mergeUser, hb]

/-- C3 witness: bob granting himself the admin role through a profile
update on the demo store. -/
theorem c3_witness :
    (updateUser demoStore (some bobAuth) bobAuth.id { role := some "admin" }).1
      = Except.ok (mergeUser bob { role := some "admin" } bobAuth.id) ∧
    (kvGet (updateUser demoStore (some bobAuth) bobAuth.id
        { role := some "admin" }).2.users bobAuth.id).map User.role
      = some "admin" :=
  c3_self_update_escalates_role demoStore bobAuth bob { role := some "admin" }
    (by decide) (by decide) rfl

end Blog

namespace Blog

/-- Successful update characterization: when Update Post returns `ok p`, the
record `p` is the shallow merge and it is what the store now holds. -/
theorem updatePost_ok (st : Store) (caller : Option AuthUser) (postId : String)
    (b : PostUpdate) (now : Nat) (cur p : Post)
    (hget : kvGet st.posts postId = some cur)
    (hok : (updatePost st caller postId b now).1 = Except.ok p) :
    p = mergePost cur b postId now ∧
    kvGet (updatePost st caller postId b now).2.posts postId = some p := by
  match caller with
  | none => simp [updatePost] at hok
  | some u =>
    simp only [updatePost, hget] at hok ⊢
    by_cases hcond : cur.authorId ≠ u.id ∧ roleIsAdmin (kvGet st.users u.id) = false
    · rw [if_pos hcond] at hok
      simp at hok
    · rw [if_neg hcond] at hok ⊢
      simp only [] at hok
      have hp : p = mergePost cur b postId now := by
        have := Except.ok.inj hok
        exact this.symm
      subst hp
      exact ⟨rfl, by simp [kvGet_kvSet_self]⟩

/-- C1 (amended): after an accepted Update Post, the stored status is the
body's status when supplied, else the prior one; so whenever the body's
status (if present) is one of the two enumerated values and the prior status
was too, the stored status remains in `{draft, published}`. -/
theorem c1_update_keeps_status_enum (st : Store) (caller : Option AuthUser)
    (postId : String) (b : PostUpdate) (now : Nat) (cur p : Post)
    (hget : kvGet st.posts postId = some cur)
    (hcur : cur.status = "draft" ∨ cur.status = "published")
    (hb : ∀ s, b.status = some s → s = "draft" ∨ s = "published")
    (hok : (updatePost st caller postId b now).1 = Except.ok p) :
    (p.status = "draft" ∨ p.status = "published") ∧
    kvGet (updatePost st caller postId b now).2.posts postId = some p := by
  obtain ⟨hp, hstore⟩ := updatePost_ok st caller postId b now cur p hget hok
  refine ⟨?_, hstore⟩
  subst hp
  show (b.status.getD cur.status = "draft" ∨ b.status.getD cur.status = "published")
  match hbs : b.status with
  | none => simpa using hcur
  | some s => simpa using hb s hbs

/-- C1 witness: the author replacing the status of a published post by
`draft` keeps the status in the enumerated set. -/
theorem c1_witness :
    ((mergePost post1 { status := some "draft" } "p1" 99).status = "draft" ∨
      (mergePost post1 { status := some "draft" } "p1" 99).status = "published") ∧
    kvGet (updatePost demoStore (some aliceAuth) "p1"
        { status := some "draft" } 99).2.posts "p1"
      = some (mergePost post1 { status := some "draft" } "p1" 99) :=
  c1_update_keeps_status_enum demoStore (some aliceAuth) "p1"
    { status := some "draft" } 99 post1 _ (by decide) (by decide)
    (fun s hs => by injection hs with h; exact Or.inl h.symm) rfl

/-- C1 counterexample: the handler validates nothing, so an accepted update
whose body carries `status: "pending"` stores a status outside
`{draft, published}`. -/
theorem c1_counterexample :
    (updatePost demoStore (some aliceAuth) "p1"
        { status := some "pending" } 99).1.isOk = true ∧
    (kvGet (updatePost demoStore (some aliceAuth) "p1"
        { status := some "pending" } 99).2.posts "p1").map Post.status
      = some "pending" ∧
    ¬("pending" = "draft" ∨ "pending" = "published") := by decide

/-- C2 (amended): the update merge pins only `id` (and stamps `updatedAt`);
`authorId` is preserved exactly when the body does not supply one. -/
theorem c2_authorId_preserved_when_body_omits_it (st : Store)
    (caller : Option AuthUser) (postId : String) (b : PostUpdate) (now : Nat)
    (cur p : Post) (hget : kvGet st.posts postId = some cur)
    (hb : b.authorId = none)
    (hok : (updatePost st caller postId b now).1 = Except.ok p) :
    p.authorId = cur.authorId ∧ p.id = postId ∧
    kvGet (updatePost st caller postId b now).2.posts postId = some p := by
  obtain ⟨hp, hstore⟩ := updatePost_ok st caller postId b now cur p hget hok
  subst hp
  refine ⟨?_, rfl, hstore⟩
  show b.authorId.getD cur.authorId = cur.authorId
  rw [hb]
  rfl

/-- C2 witness: an accepted update whose body has no `authorId` leaves the
author untouched. -/
theorem c2_witness :
    (mergePost post1 {} "p1" 99).authorId = post1.authorId ∧
    (mergePost post1 {} "p1" 99).id = "p1" ∧
    kvGet (updatePost demoStore (some aliceAuth) "p1" {} 99).2.posts "p1"
      = some (mergePost post1 {} "p1" 99) :=
  c2_authorId_preserved_when_body_omits_it demoStore (some aliceAuth) "p1" {}
    99 post1 _ (by decide) rfl rfl

/-- C2 counterexample: the merge does not pin `authorId`, so an accepted
update carrying `authorId: "mallory"` changes the stored author. -/
theorem c2_counterexample :
    (updatePost demoStore (some aliceAuth) "p1"
        { authorId := some "mallory" } 99).1.isOk = true ∧
    (kvGet (updatePost demoStore (some aliceAuth) "p1"
        { authorId := some "mallory" } 99).2.posts "p1").map Post.authorId
      = some "mallory" ∧
    post1.authorId = "alice" ∧ ¬("mallory" = "alice") := by decide

end Blog

namespace Blog

/-- C7: Create Post with `{title: "T", content: "<p>hi</p>", tags: ["x","y"]}`
followed by Get Post on the returned id reproduces title, content and tags,
and the generated id matches `post_<digits>_<alnum>`. -/
theorem c7_create_then_get_roundtrip (st : Store) (u : AuthUser) (now : Nat)
    (rand : String) (p : Post)
    (hr1 : rand ≠ "") (hr2 : rand.data.all Char.isAlphanum = true)
    (hok : (createPost st (some u)
        { title := some "T", content := some "<p>hi</p>", tags := some ["x", "y"] }
        now rand).1 = Except.ok p) :
    p.title = some "T" ∧ p.content = some "<p>hi</p>" ∧ p.tags = ["x", "y"] ∧
    getPost (createPost st (some u)
        { title := some "T", content := some "<p>hi</p>", tags := some ["x", "y"] }
        now rand).2 p.id = Except.ok p ∧
    PostIdPattern p.id := by
  have h1 : Except.ok (newPostOf st u
      { title := some "T", content := some "<p>hi</p>", tags := some ["x", "y"] }
      now rand) = Except.ok p := hok
  have hp := (Except.ok.inj h1).symm
  subst hp
  refine ⟨rfl, rfl, rfl, ?_, ?_⟩
  · show getPost
      { st with posts := kvSet st.posts (postIdOf now rand) (newPostOf st u _ now rand) }
      (postIdOf now rand) = _
    unfold getPost
    rw [show ({ st with
        posts := kvSet st.posts (postIdOf now rand) (newPostOf st u
          { title := some "T", content := some "<p>hi</p>", tags := some ["x", "y"] }
          now rand) } : Store).posts = kvSet st.posts (postIdOf now rand) (newPostOf st u
          { title := some "T", content := some "<p>hi</p>", tags := some ["x", "y"] }
          now rand) from rfl, kvGet_kvSet_self]
  · exact ⟨Nat.repr now, rand, rfl, repr_ne_empty now, repr_all_digits now, hr1, hr2⟩

/-- C7 witness: alice creating the spec's post at time 12 with random part
`ab3`, then fetching it back. -/
theorem c7_witness :
    c7Post.title = some "T" ∧ c7Post.content = some "<p>hi</p>" ∧
    c7Post.tags = ["x", "y"] ∧
    getPost (createPost demoStore (some aliceAuth)
        { title := some "T", content := some "<p>hi</p>", tags := some ["x", "y"] }
        12 "ab3").2 c7Post.id = Except.ok c7Post ∧
    PostIdPattern c7Post.id :=
  c7_create_then_get_roundtrip demoStore aliceAuth 12 "ab3" c7Post
    (by decide) (by decide) rfl

/-- Arithmetic of the like handler: `(likes || 0) + 1` always increments by
one, since 0 is the only falsy `Int`. -/
theorem jsLikes_eq (x : Int) : (if x == 0 then 0 else x) + 1 = x + 1 := by
  by_cases h : x = 0 <;> simp [h]

/-- After one Like call on a stored post, the stored record is the same
record with `likes` incremented. -/
theorem likePost_step (st : Store) (pid : String) (p : Post)
    (h : kvGet st.posts pid = some p) :
    kvGet (likePost st pid).2.posts pid = some { p with likes := p.likes + 1 } := by
  simp only [likePost, h]
  simp [kvGet_kvSet_self, jsLikes_eq]
  intro h0
  omega

/-- After one Like call on a stored comment, the stored record is the same
record with `likes` incremented. -/
theorem likeComment_step (st : Store) (cid : String) (q : Comment)
    (h : kvGet st.comments cid = some q) :
    kvGet (likeComment st cid).2.comments cid
      = some { q with likes := q.likes + 1 } := by
  simp only [likeComment, h]
  simp [kvGet_kvSet_self, jsLikes_eq]
  intro h0
  omega

/-- N sequential Like calls on a stored post leave the record unchanged
except that `likes` grew by exactly N. -/
theorem likePostN_likes (st : Store) (pid : String) (p : Post) (N : Nat)
    (h : kvGet st.posts pid = some p) :
    kvGet (likePostN st pid N).posts pid
      = some { p with likes := p.likes + (N : Int) } := by
  induction N generalizing st p with
  | zero => simpa using h
  | succ n ih =>
    have h2 := likePost_step st pid p h
    have h3 := ih _ _ h2
    simp only [likePostN]
    rw [h3]
    have : p.likes + 1 + (n : Int) = p.likes + ((n : Int) + 1) := by ring
    simp [this]

/-- N sequential Like calls on a stored comment leave the record unchanged
except that `likes` grew by exactly N. -/
theorem likeCommentN_likes (st : Store) (cid : String) (q : Comment) (N : Nat)
    (h : kvGet st.comments cid = some q) :
    kvGet (likeCommentN st cid N).comments cid
      = some { q with likes := q.likes + (N : Int) } := by
  induction N generalizing st q with
  | zero => simpa using h
  | succ n ih =>
    have h2 := likeComment_step st cid q h
    have h3 := ih _ _ h2
    simp only [likeCommentN]
    rw [h3]
    have : q.likes + 1 + (n : Int) = q.likes + ((n : Int) + 1) := by ring
    simp [this]

/-- C8 (amended): N sequential non-concurrent Like calls on a stored post or
comment leave its likes counter at exactly original + N (so Like never
decrements); the monotonicity clause does not extend to Update Post, whose
merge stores a client-supplied `likes` verbatim. -/
theorem c8_sequential_likes_add_n :
    (∀ (st : Store) (pid : String) (p : Post) (N : Nat),
      kvGet st.posts pid = some p →
      kvGet (likePostN st pid N).posts pid
        = some { p with likes := p.likes + (N : Int) }) ∧
    (∀ (st : Store) (cid : String) (q : Comment) (N : Nat),
      kvGet st.comments cid = some q →
      kvGet (likeCommentN st cid N).comments cid
        = some { q with likes := q.likes + (N : Int) }) :=
  ⟨likePostN_likes, likeCommentN_likes⟩

/-- C8 witness: three likes on `post1` and two on `comment1` in the demo
store add exactly 3 and 2. -/
theorem c8_witness :
    kvGet (likePostN demoStore "p1" 3).posts "p1"
      = some { post1 with likes := post1.likes + ((3 : Nat) : Int) } ∧
    kvGet (likeCommentN demoStore "c1" 2).comments "c1"
      = some { comment1 with likes := comment1.likes + ((2 : Nat) : Int) } :=
  ⟨c8_sequential_likes_add_n.1 demoStore "p1" post1 3 (by decide),
   c8_sequential_likes_add_n.2 demoStore "c1" comment1 2 (by decide)⟩

/-- C8 counterexample: Update Post is an exposed operation that can lower
`likes` — the author merging `{likes: 0}` onto a post with 5 likes leaves the
stored counter at 0. -/
theorem c8_counterexample :
    (updatePost demoStore (some aliceAuth) "p1" { likes := some 0 } 99).1.isOk
      = true ∧
    (kvGet (updatePost demoStore (some aliceAuth) "p1"
        { likes := some 0 } 99).2.posts "p1").map Post.likes = some 0 ∧
    post1.likes = 5 := by decide

/-- C9 (amended): the featured filter fires only when the supplied flag is
the literal string `true`, keeping exactly the posts with `featured = true`;
any other supplied value (including `false`) leaves the pipeline's earlier
result unfiltered. -/
theorem c9_featured_filter_only_on_true :
    (∀ (st : Store) (caller : Option AuthUser) (c t s : Option String) (p : Post),
      p ∈ listPosts st caller c t s (some "true") ↔
        p ∈ postsAfterFilters st caller c t s ∧ p.featured = true) ∧
    (∀ (st : Store) (caller : Option AuthUser) (c t s f : Option String),
      f ≠ some "true" →
        listPosts st caller c t s f
          = sortByCreatedAtDesc (postsAfterFilters st caller c t s)) := by
  constructor
  · intro st caller c t s p
    unfold listPosts featuredFilter
    rw [mem_sortByCreatedAtDesc]
    simp [List.mem_filter]
  · intro st caller c t s f hf
    unfold listPosts featuredFilter
    simp [hf]

/-- C9 witness: in the demo store the flag `true` keeps the featured post,
and an absent flag leaves the earlier pipeline result as is. -/
theorem c9_witness :
    post1 ∈ listPosts demoStore none none none none (some "true") ∧
    listPosts demoStore none none none none none
      = sortByCreatedAtDesc (postsAfterFilters demoStore none none none none) :=
  ⟨(c9_featured_filter_only_on_true.1 demoStore none none none none post1).mpr
      ⟨by decide, by decide⟩,
   c9_featured_filter_only_on_true.2 demoStore none none none none none
      (by decide)⟩

/-- C9 counterexample: with `featured=false` supplied, a post whose
`featured` field is `true` still appears — the equality filter is not
applied for `false`. -/
theorem c9_counterexample :
    post1 ∈ listPosts demoStore none none none none (some "false") ∧
    post1.featured = true := by decide

/-- C10 (amended): the stored excerpt is the first 200 characters of the
content only when the client supplies no (or an empty) excerpt — then it is
a prefix of the content of length at most 200; a client-supplied non-empty
excerpt is stored verbatim with no length bound. -/
theorem c10_default_excerpt_bounded (st : Store) (u : AuthUser)
    (body : CreatePostBody) (now : Nat) (rand : String) (p : Post)
    (hex : body.excerpt = none ∨ body.excerpt = some "")
    (hok : (createPost st (some u) body now rand).1 = Except.ok p) :
    p.excerpt = body.content.map (fun s => strTake s 200) ∧
    (∀ e, p.excerpt = some e → e.length ≤ 200) ∧
    (∀ e c, body.content = some c → p.excerpt = some e → e.data <+: c.data) := by
  have h1 : Except.ok (newPostOf st u body now rand) = Except.ok p := hok
  have hp := (Except.ok.inj h1).symm
  subst hp
  have hx : (newPostOf st u body now rand).excerpt
      = body.content.map (fun s => strTake s 200) := by
    show jsOrOpt body.excerpt (body.content.map (fun s => strTake s 200)) = _
    rcases hex with h | h
    · simp [jsOrOpt, h]
    · simp only [jsOrOpt, h]
      rw [if_pos (by decide)]
  refine ⟨hx, ?_, ?_⟩
  · intro e he
    rw [hx] at he
    match hc : body.content with
    | none => rw [hc] at he; simp at he
    | some c =>
      rw [hc] at he
      have he2 : strTake c 200 = e := by simpa using he
      subst he2
      show (List.take 200 c.data).length ≤ 200
      rw [List.length_take]
      exact inf_le_left
  · intro e c hc he
    rw [hx, hc] at he
    have he2 : strTake c 200 = e := by simpa using he
    subst he2
    show (List.take 200 c.data) <+: c.data
    exact ⟨List.drop 200 c.data, List.take_append_drop 200 c.data⟩

/-- C10 witness: creating a post with content `hello` and no excerpt stores
the 200-character prefix `hello`, bounded and a prefix of the content. -/
theorem c10_witness :
    (newPostOf demoStore aliceAuth { content := some "hello" } 7 "zz").excerpt
      = some "hello" ∧
    String.length "hello" ≤ 200 ∧
    "hello".data <+: "hello".data := by
  have H := c10_default_excerpt_bounded demoStore aliceAuth
    { content := some "hello" } 7 "zz"
    (newPostOf demoStore aliceAuth { content := some "hello" } 7 "zz")
    (Or.inl rfl) rfl
  have he : (newPostOf demoStore aliceAuth { content := some "hello" } 7 "zz").excerpt
      = some "hello" := H.1.trans rfl
  exact ⟨he, H.2.1 "hello" he, H.2.2 "hello" "hello" rfl he⟩

set_option maxRecDepth 20000 in
/-- C10 counterexample: an accepted Create Post whose body carries a
201-character excerpt stores it verbatim, violating the 200-character
bound. -/
theorem c10_counterexample :
    (createPost demoStore (some aliceAuth)
        { excerpt := some longExcerpt } 7 "zz").1.isOk = true ∧
    ((createPost demoStore (some aliceAuth)
        { excerpt := some longExcerpt } 7 "zz").1.toOption.map
      (fun p => p.excerpt.map String.length)) = some (some 201) ∧
    ¬(201 ≤ 200) := by decide

end Blog
